import Mathlib

/-!
A shallow embedding of the Genesis FreeSWITCH ESL client (the `genesis`
python package): wire-frame parsing, event routing, command correlation and
the channel/session state machine, together with theorems about the
behaviour of those functions.

Python strings are modelled as Lean `String`s; Python dicts that the code
uses as ordered header maps are modelled as association lists preserving
insertion order.  All definitions are structurally recursive so that they
evaluate by `decide` / `rfl`.
-/

namespace Genesis

/-- A parsed header value: `parse_headers` stores a plain string, and turns
the value into a list of strings when a header key repeats
(src/genesis/parser.py, lines 65-76). -/
inductive HVal where
  | str (s : String)
  | list (l : List String)
deriving DecidableEq, Repr

/-- An ordered header map, as built by `parse_headers`: insertion order is
that of a Python dict. -/
abbrev Headers := List (String × HVal)

/-- `ESLEvent` (src/genesis/events.py): a header dictionary plus an optional
raw body.  The event subclasses in events.py differ only by their name, not
by behaviour, so a single type models all of them. -/
structure Event where
  headers : Headers
  body : Option String := none
deriving DecidableEq, Repr

/-- Python `dict.__getitem__` / `dict.get`: first (unique) binding of a key. -/
def hlookup : Headers → String → Option HVal
  | [], _ => none
  | (k, v) :: rest, key => if k = key then some v else hlookup rest key

/-- Python `dict.__setitem__`: replace the value in place if the key is
present (keeping its position in insertion order), otherwise append. -/
def hset : Headers → String → HVal → Headers
  | [], key, v => [(key, v)]
  | (k, w) :: rest, key, v =>
    if k = key then (k, v) :: rest else (k, w) :: hset rest key v

/-- Python `dict.update(other)`: `hset` every binding of `other` in order. -/
def hupdate (d : Headers) : Headers → Headers
  | [] => d
  | (k, v) :: rest => hupdate (hset d k v) rest

/-- `event.get(key)` restricted to string-valued headers.  The code paths we
model compare the result against strings or use it as a dict key, so a
list-valued header behaves like an absent one there. -/
def Event.getStr (e : Event) (key : String) : Option String :=
  match hlookup e.headers key with
  | some (HVal.str s) => some s
  | _ => none

/-! ## Python string primitives -/

/-- The whitespace set of Python `str.strip()` (restricted to the ASCII
whitespace characters that can occur in ESL frames). -/
def pyIsSpace (c : Char) : Bool :=
  c = ' ' ∨ c = '\t' ∨ c = '\n' ∨ c = '\r' ∨ c = '\x0b' ∨ c = '\x0c'

def dropLeadingSpace : List Char → List Char
  | [] => []
  | c :: rest => if pyIsSpace c then dropLeadingSpace rest else c :: rest

/-- Python `str.strip()`. -/
def pyStrip (s : String) : String :=
  ⟨(dropLeadingSpace (dropLeadingSpace s.data.reverse).reverse)⟩

/-- Does `l` start with `pre`? -/
def startsWithL : List Char → List Char → Bool
  | [], _ => true
  | _ :: _, [] => false
  | p :: ps, c :: cs => p = c ∧ startsWithL ps cs

def pyStartsWith (s pre : String) : Bool :=
  startsWithL pre.data s.data

def pyEndsWith (s suf : String) : Bool :=
  startsWithL suf.data.reverse s.data.reverse

/-- One step of Python `str.split(sep)` for a non-empty separator: fuelled
left-to-right scan over the non-overlapping occurrences of `sep`. -/
def splitSepFuel (sep : List Char) : Nat → List Char → List Char → List (List Char)
  | _, [], cur => [cur.reverse]
  | 0, rest, cur => [cur.reverse ++ rest]
  | fuel + 1, c :: rest, cur =>
    if startsWithL sep (c :: rest) then
      cur.reverse :: splitSepFuel sep fuel (List.drop sep.length (c :: rest)) []
    else
      splitSepFuel sep fuel rest (c :: cur)

/-- Python `str.split(sep)` (for a non-empty separator; `split("")` raises
in Python and never occurs in the code). -/
def pySplit (s sep : String) : List String :=
  if sep.data = [] then [s]
  else (splitSepFuel sep.data s.data.length s.data []).map fun l => ⟨l⟩

/-- Python `sub in s` for a non-empty `sub`. -/
def strContains (s sub : String) : Bool :=
  (pySplit s sub).length ≠ 1

/-- Python `s.split(sep, 1)`: split on the first occurrence only, returning
the part before it and the part after it (the whole string and `none` when
the separator does not occur). -/
def splitFirst (s sep : String) : String × Option String :=
  match pySplit s sep with
  | [] => (s, none)
  | [x] => (x, none)
  | x :: rest => (x, some (String.intercalate sep rest))

/-- Python `str.splitlines()`: fuelled scan splitting on `\n`, `\r\n`, `\r`
(the line boundaries occurring in ESL traffic); no trailing empty line. -/
def splitLinesFuel : Nat → List Char → List Char → List (List Char)
  | _, [], cur => if cur = [] then [] else [cur.reverse]
  | 0, rest, cur => [cur.reverse ++ rest]
  | fuel + 1, c :: rest, cur =>
    if c = '\n' then
      cur.reverse :: splitLinesFuel fuel rest []
    else if c = '\r' then
      match rest with
      | '\n' :: rest' => cur.reverse :: splitLinesFuel fuel rest' []
      | _ => cur.reverse :: splitLinesFuel fuel rest []
    else
      splitLinesFuel fuel rest (c :: cur)

/-- Python `str.splitlines()`.  An empty last line (input ending in a line
boundary) produces no extra entry, as in Python. -/
def pySplitlines (s : String) : List String :=
  (splitLinesFuel s.data.length s.data []).map fun l => ⟨l⟩

/-- Python `str.lower()` (ASCII). -/
def pyLower (s : String) : String := ⟨s.data.map Char.toLower⟩

/-- Python `str.upper()` (ASCII). -/
def pyUpper (s : String) : String := ⟨s.data.map Char.toUpper⟩

/-- Hex digit value, as accepted by `urllib.parse.unquote`. -/
def hexDigitVal (c : Char) : Option Nat :=
  if '0' ≤ c ∧ c ≤ '9' then some (c.toNat - '0'.toNat)
  else if 'a' ≤ c ∧ c ≤ 'f' then some (c.toNat - 'a'.toNat + 10)
  else if 'A' ≤ c ∧ c ≤ 'F' then some (c.toNat - 'A'.toNat + 10)
  else none

/-- UTF-8 decoding with replacement of ill-formed bytes (the
`errors="replace"` behaviour that `urllib.parse.unquote` uses), fuelled. -/
def utf8DecodeFuel : Nat → List Nat → List Char
  | _, [] => []
  | 0, _ => []
  | fuel + 1, b :: rest =>
    if b < 0x80 then Char.ofNat b :: utf8DecodeFuel fuel rest
    else if 0xC2 ≤ b ∧ b ≤ 0xDF then
      match rest with
      | c1 :: rest' =>
        if 0x80 ≤ c1 ∧ c1 ≤ 0xBF then
          Char.ofNat ((b - 0xC0) * 64 + (c1 - 0x80)) :: utf8DecodeFuel fuel rest'
        else Char.ofNat 0xFFFD :: utf8DecodeFuel fuel rest
      | [] => [Char.ofNat 0xFFFD]
    else if 0xE0 ≤ b ∧ b ≤ 0xEF then
      match rest with
      | c1 :: c2 :: rest' =>
        if (0x80 ≤ c1 ∧ c1 ≤ 0xBF) ∧ (0x80 ≤ c2 ∧ c2 ≤ 0xBF) then
          Char.ofNat ((b - 0xE0) * 4096 + (c1 - 0x80) * 64 + (c2 - 0x80)) ::
            utf8DecodeFuel fuel rest'
        else Char.ofNat 0xFFFD :: utf8DecodeFuel fuel rest
      | _ => [Char.ofNat 0xFFFD]
    else if 0xF0 ≤ b ∧ b ≤ 0xF4 then
      match rest with
      | c1 :: c2 :: c3 :: rest' =>
        if (0x80 ≤ c1 ∧ c1 ≤ 0xBF) ∧ (0x80 ≤ c2 ∧ c2 ≤ 0xBF) ∧ (0x80 ≤ c3 ∧ c3 ≤ 0xBF) then
          Char.ofNat ((b - 0xF0) * 262144 + (c1 - 0x80) * 4096 + (c2 - 0x80) * 64 +
              (c3 - 0x80)) :: utf8DecodeFuel fuel rest'
        else Char.ofNat 0xFFFD :: utf8DecodeFuel fuel rest
      | _ => [Char.ofNat 0xFFFD]
    else Char.ofNat 0xFFFD :: utf8DecodeFuel fuel rest

def utf8Decode (bs : List Nat) : List Char := utf8DecodeFuel bs.length bs

/-- `urllib.parse.unquote`, fuelled: a `%hh` sequence contributes the byte
`hh`; runs of such bytes are UTF-8 decoded (with replacement); a `%` not
followed by two hex digits passes through literally; everything else passes
through unchanged. -/
def unquoteFuel : Nat → List Char → List Nat → List Char
  | _, [], acc => utf8Decode acc.reverse
  | 0, rest, acc => utf8Decode acc.reverse ++ rest
  | fuel + 1, c :: rest, acc =>
    if c = '%' then
      match rest with
      | a :: b :: rest' =>
        match hexDigitVal a, hexDigitVal b with
        | some hi, some lo => unquoteFuel fuel rest' ((hi * 16 + lo) :: acc)
        | _, _ => utf8Decode acc.reverse ++ '%' :: unquoteFuel fuel rest []
      | _ => utf8Decode acc.reverse ++ '%' :: unquoteFuel fuel rest []
    else
      utf8Decode acc.reverse ++ c :: unquoteFuel fuel rest []

/-- `urllib.parse.unquote(s, encoding="UTF-8")`. -/
def unquote (s : String) : String :=
  ⟨unquoteFuel s.data.length s.data []⟩

/-! ## `parse_headers` (src/genesis/parser.py, lines 48-83) -/

/-- The loop body of `parse_headers`: `buffer` holds the raw key of the most
recent `": "` line, `value` the processed value of the previous iteration
(a line without `": "` is treated as a continuation of the previous value
and re-assigns the previous key). -/
def parseHeadersGo : List String → String → String → Headers → Headers
  | [], _, _, d => d
  | line :: rest, buffer, value, d =>
    let hasSep := strContains line ": "
    let rawKey := if hasSep then (splitFirst line ": ").1 else buffer
    let rawValue :=
      if hasSep then ((splitFirst line ": ").2.getD "") else value ++ "\n" ++ line
    let key := unquote (pyStrip rawKey)
    let val := unquote (pyStrip rawValue)
    let d' :=
      if hasSep then
        match hlookup d key with
        | some (HVal.str b) => hset d key (HVal.list [b, val])
        | some (HVal.list l) => hset d key (HVal.list (l ++ [val]))
        | none => hset d key (HVal.str val)
      else hset d key (HVal.str val)
    parseHeadersGo rest rawKey val d'

/-- `parse_headers(payload)`: strip the payload, split it into lines and
fold the header-dict construction over them.  The event-class selection at
parser.py lines 78-81 picks between behaviourally identical subclasses and
is therefore not represented. -/
def parse_headers (payload : String) : Event :=
  { headers := parseHeadersGo (pySplitlines (pyStrip payload)) "" "" [], body := none }

example : pySplitlines "a\nb\r\nc\n" = ["a", "b", "c"] := by decide
example : pyStrip "  ab \n" = "ab" := by decide
example : pySplit "x--y--z" "--" = ["x", "y", "z"] := by decide
example : splitFirst "a: b: c" ": " = ("a", some "b: c") := by decide
example : strContains "abc" "b" = true := by decide
example : unquote "a%20b" = "a b" := by decide
example :
    parse_headers "Event-Name: TEST\nReply-Text: %2BOK\n\n" =
      { headers := [("Event-Name", .str "TEST"), ("Reply-Text", .str "+OK")],
        body := none } := by decide
example :
    parse_headers "A: 1\nA: 2\nA: 3\nB: x\n" =
      { headers := [("A", .list ["1", "2", "3"]), ("B", .str "x")],
        body := none } := by decide

/-! ## Enums (genesis/enums.py)

Modelled from the spec: `enums.py` is not under `src/`; the 14 core states
and their numeric values are given by spec §3 and pinned exactly by
`tests/test_enums.py`, the call states by spec §3/§4.5 and the same tests. -/

/-- Modelled from the spec: `ChannelState`, the 13-valued core-state enum
`NEW…NONE` (values 0-13, pinned by tests/test_enums.py). -/
inductive ChannelState where
  | NEW | INIT | ROUTING | SOFT_EXECUTE | EXECUTE | EXCHANGE_MEDIA | PARK
  | CONSUME_MEDIA | HIBERNATE | RESET | HANGUP | REPORTING | DESTROY | NONE
deriving DecidableEq, Repr

/-- `ChannelState(n)`: the state with numeric value `n`, or `none` when the
constructor would raise `ValueError`. -/
def ChannelState.ofNat? : Nat → Option ChannelState
  | 0 => some .NEW
  | 1 => some .INIT
  | 2 => some .ROUTING
  | 3 => some .SOFT_EXECUTE
  | 4 => some .EXECUTE
  | 5 => some .EXCHANGE_MEDIA
  | 6 => some .PARK
  | 7 => some .CONSUME_MEDIA
  | 8 => some .HIBERNATE
  | 9 => some .RESET
  | 10 => some .HANGUP
  | 11 => some .REPORTING
  | 12 => some .DESTROY
  | 13 => some .NONE
  | _ => none

/-- Modelled from the spec: `CallState`, the call-progress enum
(`DOWN, DIALING, RINGING, EARLY, ACTIVE, HELD, HANGUP`, spec §3). -/
inductive CallState where
  | DOWN | DIALING | RINGING | EARLY | ACTIVE | HELD | HANGUP
deriving DecidableEq, Repr

/-- `CallState[name]`: lookup by member name, `none` when the subscript
would raise `KeyError`. -/
def CallState.ofName? : String → Option CallState
  | "DOWN" => some .DOWN
  | "DIALING" => some .DIALING
  | "RINGING" => some .RINGING
  | "EARLY" => some .EARLY
  | "ACTIVE" => some .ACTIVE
  | "HELD" => some .HELD
  | "HANGUP" => some .HANGUP
  | _ => none

/-- Decimal value of a digit string. -/
def digitsVal : List Char → Nat → Nat
  | [], acc => acc
  | c :: rest, acc => digitsVal rest (acc * 10 + (c.toNat - '0'.toNat))

/-- Python `int(s)` on a decimal string: optional surrounding whitespace,
optional sign, at least one digit; `none` models the `ValueError` path. -/
def pyParseInt (s : String) : Option Int :=
  let t := (pyStrip s).data
  let (sign, digits) : Int × List Char :=
    match t with
    | '-' :: rest => (-1, rest)
    | '+' :: rest => (1, rest)
    | _ => (1, t)
  if digits = [] ∨ ¬ digits.all Char.isDigit then none
  else some (sign * digitsVal digits 0)

/-! ## Channel state machine (src/genesis/channel.py) -/

/-- The state of a `Channel` object (src/genesis/channel.py, lines 38-56):
`uuid`, core `state`, `call_state`, `variables` (field `vars` here, since
`variables` is a reserved word in Lean) and the monotone `is_gone` flag.  The back-reference to the session and the per-channel handler
registry are modelled where the claims need them (the session dispatch and
correlation models below). -/
structure ChannelM where
  uuid : String
  state : ChannelState := .NEW
  call_state : CallState := .DOWN
  vars : List (String × String) := []
  is_gone : Bool := false
deriving DecidableEq, Repr

/-- `Channel(uuid, session, initial_state=ChannelState.NEW)`. -/
def ChannelM.new (uuid : String) (initial_state : ChannelState := .NEW) : ChannelM :=
  { uuid := uuid, state := initial_state }

/-- Rendering of a header value when it is stored into the string-typed
`variables` dict (values are strings in every reachable event). -/
def HVal.render : HVal → String
  | .str s => s
  | .list l => "[" ++ String.intercalate ", " (l.map fun s => "'" ++ s ++ "'") ++ "]"

/-- Python `dict.get(k)` on a string-valued dict. -/
def slookup : List (String × String) → String → Option String
  | [], _ => none
  | (k, v) :: rest, key => if k = key then some v else slookup rest key

/-- Python `dict.__setitem__` on a string-valued dict. -/
def sset : List (String × String) → String → String → List (String × String)
  | [], key, v => [(key, v)]
  | (k, w) :: rest, key, v =>
    if k = key then (k, v) :: rest else (k, w) :: sset rest key v

/-- Python `del d[k]` on a string-valued dict. -/
def sdel : List (String × String) → String → List (String × String)
  | [], _ => []
  | (k, w) :: rest, key => if k = key then rest else (k, w) :: sdel rest key

/-- The identity headers copied verbatim into `variables`
(src/genesis/channel.py, line 212). -/
def identityHeaders : List String :=
  ["Caller-Caller-ID-Number", "Caller-Caller-ID-Name", "Caller-Destination-Number",
   "Unique-ID", "Channel-Name"]

/-- The `variables` merge of `Channel.update_state`
(src/genesis/channel.py, lines 206-215): headers with the `variable_`
marker are stored under the stripped name, the identity headers verbatim;
a write happens only on value change (which cannot be observed in the final
dict, so the fold simply sets). -/
def mergeVariables (vars : List (String × String)) : Headers → List (String × String)
  | [] => vars
  | (key, v) :: rest =>
    let vars' :=
      if pyStartsWith key "variable_" then
        sset vars (String.mk (key.data.drop "variable_".length)) v.render
      else if key ∈ identityHeaders then
        sset vars key v.render
      else vars
    mergeVariables vars' rest

/-- The `Channel-State-Number` step of `Channel.update_state`
(src/genesis/channel.py, lines 153-174): parse the header as an integer and
apply it when it names a valid core state; on a malformed or out-of-range
number the state is logged and left unchanged. -/
def ChannelM.applyStateNumber (c : ChannelM) (e : Event) : ChannelM :=
  match e.getStr "Channel-State-Number" with
  | none => c
  | some raw =>
    match pyParseInt raw with
    | none => c
    | some n =>
      match (if 0 ≤ n then ChannelState.ofNat? n.toNat else none) with
      | none => c
      | some st => { c with state := st }

/-- The `Channel-Call-State` step of `Channel.update_state`
(src/genesis/channel.py, lines 176-196): the header is uppercased, the
`EARLY_MEDIA` alias maps to `EARLY`, unknown names are logged and ignored
(an empty string is falsy and skips the block entirely). -/
def ChannelM.applyCallState (c : ChannelM) (e : Event) : ChannelM :=
  match e.getStr "Channel-Call-State" with
  | none => c
  | some raw =>
    if raw = "" then c
    else
      match CallState.ofName?
          (if pyUpper raw = "EARLY_MEDIA" then "EARLY" else pyUpper raw) with
      | none => c
      | some cs => { c with call_state := cs }

/-- `Channel.update_state(event)` (src/genesis/channel.py, lines 146-215):
apply `Channel-State-Number`, apply `Channel-Call-State`, mark the channel
gone when the updated states are terminal (lines 198-203), then merge
variables. -/
def ChannelM.update_state (c : ChannelM) (e : Event) : ChannelM :=
  let c := c.applyStateNumber e
  let c := c.applyCallState e
  let c :=
    if c.call_state = CallState.HANGUP ∨ c.state = ChannelState.DESTROY then
      { c with is_gone := true }
    else c
  { c with vars := mergeVariables c.vars e.headers }

/-- Folding `update_state` over a sequence of events applied to a channel. -/
def ChannelM.applyEvents (c : ChannelM) : List Event → ChannelM
  | [] => c
  | e :: rest => (c.update_state e).applyEvents rest

example :
    (ChannelM.new "u").update_state
        { headers := [("Channel-State-Number", .str "4"),
                      ("Channel-Call-State", .str "ACTIVE"),
                      ("variable_caller_id_name", .str "Test User")] } =
      { uuid := "u", state := .EXECUTE, call_state := .ACTIVE,
        vars := [("caller_id_name", "Test User")], is_gone := false } := by
  decide

example :
    ((ChannelM.new "u").update_state
        { headers := [("Channel-Call-State", .str "hangup")] }).is_gone = true := by
  decide

/-! ## Frame body processing (src/genesis/protocol.py, `Protocol.handler`,
lines 179-237) -/

/-- Python truthiness of a header value (`if contentType:` at
src/genesis/protocol.py, line 181): an empty string and an empty list are
falsy, everything else truthy. -/
def HVal.truthy : HVal → Bool
  | .str s => s ≠ ""
  | .list l => l ≠ []

/-- The content types exempt from header/body splitting
(src/genesis/protocol.py, lines 184-188). -/
def exemptContentTypes : List HVal :=
  [.str "api/response", .str "text/rude-rejection", .str "log/data"]

/-- `new_event[key] = event[key] if key in event` for one of the inherited
header keys (src/genesis/protocol.py, lines 224-226). -/
def copyHeaderFrom (src dst : Headers) (key : String) : Headers :=
  match hlookup src key with
  | some v => hset dst key v
  | none => dst

/-- The events a frame contributes to the event queue, given the `Event`
parsed from its header block (which contained `Content-Length`) and the
decoded body `complete_content` (src/genesis/protocol.py, lines 179-237
followed by the `events.put` calls at lines 219, 228 and 252):

* absent or falsy (`if contentType:`) or exempt content type, or no
  `"\n\n"` in the body: one event whose body is the whole content;
* otherwise the body splits into `headers_part` and `body`; without the
  `event-lock: true` marker in (lowercased) `headers_part` the extra
  headers merge into the event; with the marker, `headers_part` is split
  on `"\nEvent-Name: "` — each fragment after the first becomes a fresh
  event (with the marker re-attached) inheriting `Content-Length` and
  `Content-Type` from the merged original, and when the split yields a
  single fragment `event_parts` stays `[]` and nothing at all is emitted. -/
def processFrameContent (event : Event) (complete_content : String) : List Event :=
  match hlookup event.headers "Content-Type" with
  | none => [{ event with body := some complete_content }]
  | some ct =>
    if ct.truthy = false then
      [{ event with body := some complete_content }]
    else if ct ∈ exemptContentTypes then
      [{ event with body := some complete_content }]
    else if strContains complete_content "\n\n" then
      let headers_part := (splitFirst complete_content "\n\n").1
      let body := (splitFirst complete_content "\n\n").2.getD ""
      let event_parts : List String :=
        if strContains (pyLower headers_part) "event-lock: true" then
          match pySplit headers_part "\nEvent-Name: " with
          | [] => []
          | [_] => []
          | p0 :: prest => p0 :: prest.map (fun p => "Event-Name: " ++ p)
        else [headers_part]
      match event_parts with
      | [] => []
      | first :: restParts =>
        let merged : Event :=
          { headers := hupdate event.headers (parse_headers first).headers,
            body := some body }
        let subs := restParts.map fun s =>
          let ne := (parse_headers s).headers
          let ne := copyHeaderFrom merged.headers ne "Content-Length"
          let ne := copyHeaderFrom merged.headers ne "Content-Type"
          ({ headers := ne, body := some body } : Event)
        merged :: subs
    else [{ event with body := some complete_content }]

example :
    processFrameContent
        { headers := [("Content-Length", .str "62"), ("Content-Type", .str "")] }
        "Event-Name: A\nEvent-Lock: true\nEvent-Name: B\nEvent-Lock: true\n\nBODY" =
      [{ headers := [("Content-Length", .str "62"), ("Content-Type", .str "")],
         body := some
           "Event-Name: A\nEvent-Lock: true\nEvent-Name: B\nEvent-Lock: true\n\nBODY" }] := by
  decide

/-! ## Event router and `send` (src/genesis/protocol.py, `Protocol.consume`
lines 326-343 and `Protocol.send` lines 392-430) -/

/-- The classification state of `Protocol.consume`: the FIFO reply queue
`commands` (front = next reply handed to `send`), the `authentication_event`
flag and whether a disconnect notice has triggered `stop`. -/
structure RouterState where
  commands : List Event := []
  authenticationEvent : Bool := false
  stopped : Bool := false
deriving DecidableEq, Repr

/-- The content-type classification of one event in `Protocol.consume`
(src/genesis/protocol.py, lines 326-343): an auth request sets the auth
flag; a command reply or API response is pushed onto the FIFO reply queue;
a rude-rejection or disconnect notice without a `linger` disposition stops
the session.  (The handler fan-out that follows is modelled separately for
the command-correlation claims.) -/
def routeEvent (st : RouterState) (e : Event) : RouterState :=
  match hlookup e.headers "Content-Type" with
  | none => st
  | some ct =>
    if ct = .str "auth/request" then
      { st with authenticationEvent := true }
    else if ct = .str "command/reply" then
      { st with commands := st.commands ++ [e] }
    else if ct = .str "api/response" then
      { st with commands := st.commands ++ [e] }
    else if ct = .str "text/rude-rejection" ∨ ct = .str "text/disconnect-notice" then
      if hlookup e.headers "Content-Disposition" = some (.str "linger") then st
      else { st with stopped := true }
    else st

/-- Folding the router over a sequence of parsed events, in arrival order. -/
def routeEvents (st : RouterState) : List Event → RouterState
  | [] => st
  | e :: rest => routeEvents (routeEvent st e) rest

/-- The bytes `Protocol.send` writes for a command: each line of the command
followed by `"\n"`, then one extra `"\n"` (src/genesis/protocol.py,
lines 409-414). -/
def sendWires (cmd : String) : List String :=
  ((pySplitlines cmd).map fun line => line ++ "\n") ++ ["\n"]

/-- `Protocol.send(cmd)` acting on a router state and a write log: append
the command's wire form to the written chunks, then take the next item from
the FIFO reply queue (`none` models blocking on an empty queue; the optional
`reply_timeout` only bounds that wait and does not change which item is
returned). -/
def protocolSend (st : RouterState) (written : List String) (cmd : String) :
    RouterState × List String × Option Event :=
  let written := written ++ sendWires cmd
  match st.commands with
  | [] => (st, written, none)
  | r :: rest => ({ st with commands := rest }, written, some r)

/-! ## Exceptions (genesis/exceptions.py)

Modelled from the spec: `exceptions.py` is not under `src/`; the
constructors and their payloads follow spec §7 and are pinned by
`tests/test_exceptions.py` (`SessionGoneAway(msg)`,
`OperationInterruptedException(msg, event_uuid, channel_uuid)`,
`OriginateError(msg, destination, variables)`). -/
inductive GErr where
  | sessionGoneAway (msg : String)
  | operationInterrupted (msg : String) (event_uuid channel_uuid : Option String)
  | originateError (msg destination : String) (vars : List (String × String))
deriving DecidableEq, Repr

/-! ## `CommandResult` (src/genesis/command.py) -/

/-- The state of a `CommandResult` (src/genesis/command.py, lines 28-71):
the initial reply event, the correlation ids, the command descriptor, and
the resolved-once slot (`complete_event`, `exception`, the `_complete`
flag).  `handler_registered` models `_handler_registered`. -/
structure CommandResultM where
  initial_event : Event
  app_uuid : Option String := none
  channel_uuid : Option String := none
  command : String := ""
  application : String := ""
  data : Option String := none
  complete_event : Option Event := none
  exception : Option GErr := none
  complete : Bool := false
  handler_registered : Bool := false
deriving DecidableEq, Repr

/-- `CommandResult.set_complete(event)` (src/genesis/command.py,
lines 119-126): store the completion event and set the completion flag. -/
def CommandResultM.set_complete (r : CommandResultM) (e : Event) : CommandResultM :=
  { r with complete_event := some e, complete := true }

/-- `CommandResult.set_exception(exc)` (src/genesis/command.py,
lines 128-134): store the exception and set the completion flag. -/
def CommandResultM.set_exception (r : CommandResultM) (exc : GErr) : CommandResultM :=
  { r with exception := some exc, complete := true }

/-- `CommandResult.is_completed`. -/
def CommandResultM.is_completed (r : CommandResultM) : Bool := r.complete

/-- `CommandResult.is_successful` (src/genesis/command.py, lines 99-107):
`none` models the `ValueError` raised before completion; once completed the
command is successful exactly when no exception is stored. -/
def CommandResultM.is_successful (r : CommandResultM) : Option Bool :=
  if r.complete then some (r.exception = none) else none

/-- `CommandResult.response`: the `Application-Response` header of the
completion event, if any. -/
def CommandResultM.response (r : CommandResultM) : Option String :=
  match r.complete_event with
  | none => none
  | some e => if r.complete then e.getStr "Application-Response" else none

/-- `CommandResult.__init__` (src/genesis/command.py, lines 28-71): if the
initial event is already the matching `CHANNEL_EXECUTE_COMPLETE`, mark the
result complete; if a channel and an `app_uuid` are attached to an
`execute` command that is not yet complete, register the channel-level
completion handler. -/
def mkCommandResult (initial_event : Event) (app_uuid : Option String)
    (channel_uuid : Option String) (hasChannel : Bool)
    (command application : String) (data : Option String) : CommandResultM :=
  let r : CommandResultM :=
    { initial_event := initial_event, app_uuid := app_uuid,
      channel_uuid := channel_uuid, command := command,
      application := application, data := data }
  let alreadyComplete : Bool :=
    match app_uuid with
    | some u =>
      initial_event.getStr "Event-Name" = some "CHANNEL_EXECUTE_COMPLETE" &&
        hlookup initial_event.headers "Application-UUID" = some (.str u)
    | none => false
  let r :=
    if alreadyComplete then
      { r with complete_event := some initial_event, complete := true }
    else r
  if hasChannel ∧ app_uuid ≠ none ∧ command = "execute" ∧ r.complete = false then
    { r with handler_registered := true }
  else r

/-! ## Execute-command correlation (src/genesis/session.py,
`Session._awaitable_complete_command`, lines 162-222)

For one in-flight `execute` command with correlation id `appUuid` on channel
`chanUuid`, the registered waiters are:

* `bound_complete_handler` under `"CHANNEL_EXECUTE_COMPLETE"`,
* `bound_hangup_handler` under `"CHANNEL_HANGUP"` and `"CHANNEL_DESTROY"`,
* the `CommandResult` channel-level completion handler registered by
  `_register_completion_handler` (src/genesis/command.py, lines 73-92),
  reached through the session's `"*"` dispatcher when the event routes to
  the channel.

`CorrState` records which of these are currently in the handler registries,
plus the `CommandResult` they resolve. -/
structure CorrState where
  completeReg : Bool := true
  hangupReg : Bool := true
  destroyReg : Bool := true
  chanReg : Bool := true
  result : CommandResultM
deriving DecidableEq, Repr

/-- The channel id an event resolves to in
`Session._dispatch_event_to_channels` (src/genesis/session.py, lines
84-96): `Channel-Unique-ID`, falling back to `Unique-ID` when that header
is absent or falsy, and `none` (event dropped) when the result is still
absent or falsy. -/
def resolveUuid (e : Event) : Option String :=
  let t :=
    match e.getStr "Channel-Unique-ID" with
    | some u => if u = "" then e.getStr "Unique-ID" else some u
    | none => e.getStr "Unique-ID"
  match t with
  | some u => if u = "" then none else some u
  | none => none

/-- Delivery of one parsed event to the registered waiters of an in-flight
`execute` command, as performed by the single router task: the session-level
specific handlers fire first (src/genesis/session.py, lines 178-209 — the
matching one resolves the result and removes all session-level waiters),
then the `"*"` dispatcher forwards the event to the channel, where the
`CommandResult` channel-level completion handler may fire
(src/genesis/command.py, lines 81-88). -/
def corrDispatch (appUuid chanUuid : String) (st : CorrState) (e : Event) : CorrState :=
  let name := e.getStr "Event-Name"
  let st :=
    if name = some "CHANNEL_EXECUTE_COMPLETE" ∧ st.completeReg ∧
        hlookup e.headers "Application-UUID" = some (.str appUuid) then
      { st with result := st.result.set_complete e,
                completeReg := false, hangupReg := false, destroyReg := false }
    else st
  let st :=
    if ((name = some "CHANNEL_HANGUP" ∧ st.hangupReg) ∨
        (name = some "CHANNEL_DESTROY" ∧ st.destroyReg)) ∧
        e.getStr "Unique-ID" = some chanUuid then
      { st with
          result := st.result.set_exception
            (.operationInterrupted
              ("Operation with App-UUID " ++ appUuid ++ " on channel " ++ chanUuid ++
               " interrupted by " ++ ((e.getStr "Event-Name").getD "None"))
              (some appUuid) (some chanUuid)),
          completeReg := false, hangupReg := false, destroyReg := false }
    else st
  let st :=
    if resolveUuid e = some chanUuid ∧ st.chanReg ∧
        name = some "CHANNEL_EXECUTE_COMPLETE" ∧
        hlookup e.headers "Application-UUID" = some (.str appUuid) then
      { st with result := st.result.set_complete e, chanReg := false }
    else st
  st

/-- The empty `ESLEvent()` used as the placeholder `initial_event` in
`Session.sendmsg` before the synchronous reply arrives. -/
def emptyEvent : Event := { headers := [] }

/-- The correlation state right after `Session.sendmsg` has registered the
waiters for an `execute` command on a known channel and received the
synchronous reply (src/genesis/session.py, lines 289-310). -/
def corrInit (appUuid chanUuid application : String) (data : Option String)
    (reply : Event) : CorrState :=
  { result :=
      { (mkCommandResult emptyEvent (some appUuid) (some chanUuid) true
          "execute" application data) with initial_event := reply } }

/-! ## Session event dispatch (src/genesis/session.py,
`Session._dispatch_event_to_channels`, lines 79-160) -/

/-- Python `dict.get(k)` on the session's channel map. -/
def clookup : List (String × ChannelM) → String → Option ChannelM
  | [], _ => none
  | (k, v) :: rest, key => if k = key then some v else clookup rest key

/-- Python `dict.__setitem__` on the session's channel map. -/
def cset : List (String × ChannelM) → String → ChannelM → List (String × ChannelM)
  | [], key, v => [(key, v)]
  | (k, w) :: rest, key, v =>
    if k = key then (k, v) :: rest else (k, w) :: cset rest key v

/-- Python `del d[k]` on the session's channel map. -/
def cdel : List (String × ChannelM) → String → List (String × ChannelM)
  | [], _ => []
  | (k, w) :: rest, key => if k = key then rest else (k, w) :: cdel rest key

/-- The session state touched by the dispatcher: the channel registry, the
primary leg (identified by its uuid — Python stores the object reference,
and uuids are the registry keys), and the `myevents` flag. -/
structure SessionSt where
  channels : List (String × ChannelM) := []
  channel_a : Option String := none
  myevents : Bool := false
deriving DecidableEq, Repr

/-- An observable side effect of the dispatcher. -/
inductive SessAct where
  | sendFilter (uuid : String)
deriving DecidableEq, Repr

/-- The tail of `_dispatch_event_to_channels` for a channel present in the
registry (src/genesis/session.py, lines 148-160): forward the event to the
channel's `_handle_event` (whose state effect is `update_state`), then on a
`CHANNEL_DESTROY` event remove the channel and clear `channel_a` when it
was this channel. -/
def handleKnownChannel (s : SessionSt) (e : Event) (uuid : String) (ch : ChannelM) :
    SessionSt :=
  let s := { s with channels := cset s.channels uuid (ch.update_state e) }
  if e.getStr "Event-Name" = some "CHANNEL_DESTROY" then
    let s := { s with channels := cdel s.channels uuid }
    if s.channel_a = some uuid then { s with channel_a := none } else s
  else s

/-- The unknown-id creation branch of `_dispatch_event_to_channels`
(src/genesis/session.py, lines 114-149): register a fresh Channel, issue a
narrowing filter for it unless `myevents` is set or this is the initial
connect reply, make it `channel_a` if `channel_a` is unset, then forward
the triggering event to it. -/
def createUnknownChannel (s : SessionSt) (e : Event) (uuid : String)
    (isInitialConnectReply : Bool) : SessionSt × List SessAct :=
  let ch := ChannelM.new uuid
  let s1 := { s with channels := cset s.channels uuid ch }
  let acts :=
    if s1.myevents = false && isInitialConnectReply = false then
      [SessAct.sendFilter uuid]
    else []
  let s2 := if s1.channel_a = none then { s1 with channel_a := some uuid } else s1
  (handleKnownChannel s2 e uuid ch, acts)

/-- `Session._dispatch_event_to_channels(event)` (src/genesis/session.py,
lines 79-160): resolve a target channel id (drop the event when none is
present); forward to a known channel; for an unknown id create a channel
only on `CHANNEL_CREATE`/`CHANNEL_DATA` or on the initial connect reply (a
`command/reply` carrying `Channel-State` while no A-leg exists), and drop
every other event for unknown ids. -/
def dispatchEventToChannels (s : SessionSt) (e : Event) : SessionSt × List SessAct :=
  match resolveUuid e with
  | none => (s, [])
  | some uuid =>
    match clookup s.channels uuid with
    | some ch => (handleKnownChannel s e uuid ch, [])
    | none =>
      let isInitialConnectReply : Bool :=
        s.channel_a = none && e.getStr "Content-Type" = some "command/reply" &&
          (hlookup e.headers "Channel-State").isSome
      let isCreationEvent : Bool :=
        e.getStr "Event-Name" = some "CHANNEL_CREATE" ||
          e.getStr "Event-Name" = some "CHANNEL_DATA"
      if isCreationEvent || isInitialConnectReply then
        createUnknownChannel s e uuid isInitialConnectReply
      else (s, [])

/-- Folding the dispatcher over a sequence of events (the router task
delivers them one at a time, in order). -/
def dispatchEvents (s : SessionSt) : List Event → SessionSt
  | [] => s
  | e :: rest => dispatchEvents (dispatchEventToChannels s e).1 rest

/-- How many events of the sequence set `channel_a` (a `none → some`
transition of the dispatcher). -/
def countChannelASets (s : SessionSt) : List Event → Nat
  | [] => 0
  | e :: rest =>
    let s' := (dispatchEventToChannels s e).1
    (if s.channel_a = none ∧ s'.channel_a ≠ none then 1 else 0) +
      countChannelASets s' rest

/-! ## `build_variable_string` (genesis/utils.py) -/

/-- Modelled from the spec: the single-quoting rule of
`build_variable_string` for string values — quote unless the value is
already single- or double-quoted (spec §4.6, pinned by
tests/test_utils.py). -/
def quoteVariableValue (v : String) : String :=
  if 2 ≤ v.data.length ∧
      ((pyStartsWith v "'" ∧ pyEndsWith v "'") ∨
        (pyStartsWith v "\"" ∧ pyEndsWith v "\"")) then v
  else "'" ++ v ++ "'"

/-- Modelled from the spec: `build_variable_string` lives in
genesis/utils.py, which is not under `src/`.  Per spec §4.6 and
tests/test_utils.py: an empty map serializes to `""`, otherwise to a
brace-wrapped comma-separated `key=value` list; the call sites we embed
only pass string values, which are single-quoted unless already quoted. -/
def build_variable_string (vars : List (String × String)) : String :=
  if vars = [] then ""
  else
    "\x7b" ++
      String.intercalate ","
        (vars.map fun kv => kv.1 ++ "=" ++ quoteVariableValue kv.2) ++
      "\x7d"

/-! ## Channel operations (src/genesis/channel.py) -/

/-- An observable side effect of a channel operation: registering a channel
in the session map, sending a filter command, writing a `sendmsg` command
frame, or issuing a background API command. -/
inductive ChanAct where
  | registerChannel (uuid : String)
  | sendFilter (uuid : String)
  | sendmsg (uuid command application : String) (data : Option String)
      (appEventUuid : Option String)
  | bgapi (cmd : String)
deriving DecidableEq, Repr

/-- The `SessionGoneAway` raised by `Channel._check_if_gone`
(src/genesis/channel.py, lines 61-64). -/
def goneAwayErr (c : ChannelM) : GErr :=
  .sessionGoneAway ("Channel " ++ c.uuid ++ " has been destroyed.")

/-- `Channel._sendmsg` (src/genesis/channel.py, lines 217-238): check the
gone flag, then forward to `Session.sendmsg`, whose observable effect is
writing one `sendmsg` command frame.  On a destroyed leg the error is
raised before anything is written (empty action trace). -/
def ChannelM.sendmsgOp (c : ChannelM) (command application : String)
    (data : Option String) (appEventUuid : Option String) :
    List ChanAct × Except GErr Unit :=
  if c.is_gone then ([], .error (goneAwayErr c))
  else ([.sendmsg c.uuid command application data appEventUuid], .ok ())

/-- `Channel.execute(application, data, ...)` (src/genesis/channel.py,
lines 240-271). -/
def ChannelM.execute (c : ChannelM) (application : String) (data : Option String)
    (appEventUuid : Option String := none) : List ChanAct × Except GErr Unit :=
  c.sendmsgOp "execute" application data appEventUuid

/-- `Channel.get_variable(name)` (src/genesis/channel.py, lines 516-534):
check the gone flag, then answer from the local variable snapshot. -/
def ChannelM.get_variable (c : ChannelM) (name : String) :
    List ChanAct × Except GErr (Option String) :=
  if c.is_gone then ([], .error (goneAwayErr c))
  else ([], .ok (slookup c.vars name))

/-- `Channel.unbridge(destination, park)` (src/genesis/channel.py,
lines 613-650): check the gone flag, then issue one `uuid_transfer`
background job (flag and target as in the source f-string, including the
double space when `park` is false). -/
def ChannelM.unbridge (c : ChannelM) (destination : Option String) (park : Bool) :
    List ChanAct × Except GErr Unit :=
  if c.is_gone then ([], .error (goneAwayErr c))
  else
    let transfer_target := if park then "park:" else destination.getD ""
    let both_flag := if park then "-both" else ""
    ([.bgapi ("uuid_transfer " ++ c.uuid ++ " " ++ both_flag ++ " " ++
        transfer_target ++ " inline")], .ok ())

/-- Truthiness of `self.variables.get(...)` in the caller-id carryover of
`Channel.bridge`: present and non-empty. -/
def truthyOpt : Option String → Bool
  | some s => s ≠ ""
  | none => false

/-- The effective B-leg origination variables built by `Channel.bridge` for
a dialstring target (src/genesis/channel.py, lines 364-383): force
`origination_uuid` to the fresh B-leg id, carry the A-leg caller id name
and number over unless the caller supplied them (and the A-leg value is
truthy), then drop any entry of those two keys that ended up empty. -/
def bridgeEffectiveVars (c : ChannelM) (call_variables : List (String × String))
    (blegUuid : String) : List (String × String) :=
  let ecv := sset call_variables "origination_uuid" blegUuid
  let cidName := slookup c.vars "Caller-Caller-ID-Name"
  let cidNum := slookup c.vars "Caller-Caller-ID-Number"
  let ecv :=
    if slookup ecv "origination_caller_id_name" = none ∧ truthyOpt cidName then
      sset ecv "origination_caller_id_name" (cidName.getD "")
    else ecv
  let ecv :=
    if slookup ecv "origination_caller_id_number" = none ∧ truthyOpt cidNum then
      sset ecv "origination_caller_id_number" (cidNum.getD "")
    else ecv
  let ecv :=
    if slookup ecv "origination_caller_id_name" = some "" then
      sdel ecv "origination_caller_id_name"
    else ecv
  let ecv :=
    if slookup ecv "origination_caller_id_number" = some "" then
      sdel ecv "origination_caller_id_number"
    else ecv
  ecv

/-- `Channel.bridge(target, call_variables, block)` (src/genesis/channel.py,
lines 321-411).  `target` is either a dialstring (`Sum.inl`) or an existing
channel (`Sum.inr`); `blegUuid` and `bridgeAppUuid` stand for the two
`uuid4()` draws.  Output: the action trace in program order, the updated
session channel map, and the returned B-leg channel (`some` exactly for a
dialstring target; the `CommandResult` component of the Python return value
is represented by the `sendmsg` action carrying its correlation id). -/
def ChannelM.bridge (c : ChannelM) (channels : List (String × ChannelM))
    (target : String ⊕ ChannelM) (call_variables : List (String × String))
    (blegUuid bridgeAppUuid : String) :
    List ChanAct × List (String × ChannelM) × Except GErr (Option ChannelM) :=
  if c.is_gone then ([], channels, .error (goneAwayErr c))
  else
    match target with
    | .inr t =>
      ([.bgapi ("uuid_bridge " ++ c.uuid ++ " " ++ t.uuid)], channels, .ok none)
    | .inl dest =>
      let data := build_variable_string (bridgeEffectiveVars c call_variables blegUuid) ++ dest
      let bleg := ChannelM.new blegUuid
      ([.registerChannel blegUuid, .sendFilter blegUuid,
        .sendmsg c.uuid "execute" "bridge" (some data) (some bridgeAppUuid)],
       cset channels blegUuid bleg, .ok (some bleg))

/-- `Channel.hangup(cause)` (src/genesis/channel.py, lines 273-297): when
the channel is already in `HANGUP`/`DESTROY` state or marked gone, send
nothing and return a synthetic, already-completed `CommandResult` whose
reply text is `"+OK Channel already hungup or gone"`; otherwise send the
hangup frame and complete the result with the synchronous reply
(src/genesis/session.py, lines 314-319). -/
def ChannelM.hangup (c : ChannelM) (cause : String) (reply : Event) :
    List ChanAct × CommandResultM :=
  if c.state = ChannelState.HANGUP ∨ c.state = ChannelState.DESTROY ∨ c.is_gone then
    let ev : Event :=
      { headers := [("Reply-Text", .str "+OK Channel already hungup or gone")] }
    let r := mkCommandResult ev none (some c.uuid) true "hangup" "" (some cause)
    ([], r.set_complete r.initial_event)
  else
    let r :=
      { (mkCommandResult emptyEvent none (some c.uuid) true "hangup" "" (some cause))
        with initial_event := reply }
    ([.sendmsg c.uuid "hangup" "" (some cause) none], r.set_complete reply)

/-! ## `Channel.originate` (src/genesis/channel.py, lines 536-611) -/

/-- The fields of the `BackgroundJobResult` that `Channel.originate` reads
(`results.py`/`bgapi.py` are not under `src/`; this carries exactly the two
observations `originate` makes: the Python truthiness of
`result.completion_event` and `result.response`). -/
structure BgJobOutcome where
  hasCompletionEvent : Bool := true
  response : Option String := none
deriving DecidableEq, Repr

/-- The error classification of the job response body
(src/genesis/channel.py, line 586). -/
def originateRespFails (body : String) : Bool :=
  pyStartsWith body "-ERR" || strContains (pyUpper body) "ERROR"

/-- The outcome of `Channel.originate`: the action trace, the final session
channel map, and either the new channel or the raised error. -/
structure OriginateOut where
  actions : List ChanAct
  channels : List (String × ChannelM)
  result : Except GErr ChannelM
deriving Repr

/-- `Channel.originate(session, destination, uuid, variables, timeout,
application_after)` (src/genesis/channel.py, lines 536-611): build the
`originate` bgapi command over the merged variables, await the job, raise
`OriginateError(destination, vars)` when the response body is classified as
an error (before the channel is registered); otherwise register the channel
and raise the error anyway — deleting the registration in the `except`
block — when the channel is already marked gone (`goneAtCheck` stands for
the `new_channel.is_gone` read at line 597, which concurrent event dispatch
may have set; it is `false` when no interleaved event marked the leg). -/
def channelOriginate (channels : List (String × ChannelM)) (destination : String)
    (uuidArg : Option String) (freshUuid : String)
    (variablesArg : List (String × String)) (timeout : Option Nat)
    (application_after : String) (job : BgJobOutcome) (goneAtCheck : Bool) :
    OriginateOut :=
  let new_uuid :=
    match uuidArg with
    | some u => if u = "" then freshUuid else u
    | none => freshUuid
  let new_channel := ChannelM.new new_uuid
  let vars_dict := sset variablesArg "origination_uuid" new_uuid
  let full_destination := destination ++ " &" ++ application_after
  let timeout_str :=
    match timeout with
    | some t => if t = 0 then "" else "timeout=" ++ toString t
    | none => ""
  let originate_cmd :=
    "originate " ++ build_variable_string vars_dict ++ full_destination ++ " " ++
      timeout_str
  let actions := [ChanAct.sendFilter new_uuid, ChanAct.bgapi originate_cmd]
  let checkedErr : Option String :=
    match job.response with
    | some r =>
      if job.hasCompletionEvent ∧ r ≠ "" ∧ originateRespFails (pyStrip r) then
        some (pyStrip r)
      else none
    | none => none
  match checkedErr with
  | some body =>
    { actions := actions,
      channels :=
        if (clookup channels new_uuid).isSome then cdel channels new_uuid
        else channels,
      result :=
        .error (.originateError ("Originate command failed: " ++ body)
          destination vars_dict) }
  | none =>
    let channels1 := cset channels new_uuid new_channel
    if goneAtCheck then
      { actions := actions,
        channels := cdel channels1 new_uuid,
        result :=
          .error (.originateError
            ("Channel " ++ new_uuid ++ " disconnected immediately")
            destination vars_dict) }
    else
      { actions := actions, channels := channels1, result := .ok new_channel }

/-! ## Statement-side definitions used by the claims -/

/-- The processed (key, value) pair of one header line, per the claim: split
on the first `": "`, strip, percent-unescape. -/
def headerLinePairs (lines : List String) : List (String × String) :=
  lines.map fun line =>
    (unquote (pyStrip (splitFirst line ": ").1),
     unquote (pyStrip ((splitFirst line ": ").2.getD "")))

/-- All values carried by key `k`, in arrival order. -/
def valuesOf (k : String) (pairs : List (String × String)) : List String :=
  pairs.filterMap fun p => if p.1 = k then some p.2 else none

/-- The claim's scalar/list rule: no occurrence means no entry, a single
occurrence a scalar entry, several occurrences a list entry in arrival
order. -/
def promoteVals : List String → Option HVal
  | [] => none
  | [v] => some (.str v)
  | v :: vs => some (.list (v :: vs))

/-- The first emitted event of a bundled frame: the segment's headers merged
into the original event, carrying the remaining body. -/
def mergedC2 (event : Event) (cc p0 : String) : Event :=
  { headers := hupdate event.headers (parse_headers p0).headers,
    body := some ((splitFirst cc "\n\n").2.getD "") }

/-- A subsequent emitted event of a bundled frame: the segment re-prefixed
with the event-name marker and parsed on its own, `Content-Length` and
`Content-Type` copied from the merged original, carrying the same body. -/
def subEventC2 (event : Event) (cc p0 p : String) : Event :=
  { headers :=
      copyHeaderFrom (mergedC2 event cc p0).headers
        (copyHeaderFrom (mergedC2 event cc p0).headers
          (parse_headers ("Event-Name: " ++ p)).headers "Content-Length")
        "Content-Type",
    body := some ((splitFirst cc "\n\n").2.getD "") }

/-- The header-block event of the counterexample frame: a
`text/event-plain` event payload with a content length. -/
def lockFrameEventC2 : Event :=
  { headers := [("Content-Length", .str "58"), ("Content-Type", .str "text/event-plain")] }

/-- The decoded body of the counterexample frame: one locked event-header
block (its own `Event-Name` on the first line, so no `"\nEvent-Name: "`
occurrence) followed by a body. -/
def lockBodyC2 : String :=
  "Event-Name: CHANNEL_EXECUTE_COMPLETE\nEvent-Lock: true\n\nOK"


/-! ## Association-list lemmas -/

theorem hlookup_hset (d : Headers) (key k : String) (v : HVal) :
    hlookup (hset d key v) k = if key = k then some v else hlookup d k := by
  induction d with
  | nil =>
    by_cases h : key = k <;> simp [hset, hlookup, h]
  | cons kv rest ih =>
    obtain ⟨k0, v0⟩ := kv
    by_cases h0 : k0 = key
    · subst h0
      by_cases h : k0 = k <;> simp [hset, hlookup, h]
    · by_cases h : k0 = k
      · subst h
        have : ¬ key = k0 := fun hc => h0 hc.symm
        simp [hset, hlookup, h0, this]
      · simp [hset, hlookup, h0, h, ih]

theorem clookup_cset (d : List (String × ChannelM)) (key k : String) (v : ChannelM) :
    clookup (cset d key v) k = if key = k then some v else clookup d k := by
  induction d with
  | nil =>
    by_cases h : key = k <;> simp [cset, clookup, h]
  | cons kv rest ih =>
    obtain ⟨k0, v0⟩ := kv
    by_cases h0 : k0 = key
    · subst h0
      by_cases h : k0 = k <;> simp [cset, clookup, h]
    · by_cases h : k0 = k
      · subst h
        have : ¬ key = k0 := fun hc => h0 hc.symm
        simp [cset, clookup, h0, this]
      · simp [cset, clookup, h0, h, ih]

theorem cdel_cset_of_not_mem (d : List (String × ChannelM)) (key : String)
    (v : ChannelM) (h : clookup d key = none) : cdel (cset d key v) key = d := by
  induction d with
  | nil => simp [cset, cdel]
  | cons kv rest ih =>
    obtain ⟨k0, v0⟩ := kv
    by_cases h0 : k0 = key
    · simp [clookup, h0] at h
    · simp [clookup, h0] at h
      simp [cset, cdel, h0, ih h]

/-! ## Claim C3: `is_gone` is monotone and becomes true exactly at the
terminal condition -/

theorem applyStateNumber_fields (c : ChannelM) (e : Event) :
    (c.applyStateNumber e).is_gone = c.is_gone ∧
      (c.applyStateNumber e).call_state = c.call_state ∧
      (c.applyStateNumber e).vars = c.vars := by
  unfold ChannelM.applyStateNumber
  split
  · exact ⟨rfl, rfl, rfl⟩
  · split
    · exact ⟨rfl, rfl, rfl⟩
    · split
      · exact ⟨rfl, rfl, rfl⟩
      · exact ⟨rfl, rfl, rfl⟩

theorem applyCallState_fields (c : ChannelM) (e : Event) :
    (c.applyCallState e).is_gone = c.is_gone ∧
      (c.applyCallState e).state = c.state ∧
      (c.applyCallState e).vars = c.vars := by
  unfold ChannelM.applyCallState
  split
  · exact ⟨rfl, rfl, rfl⟩
  · split
    · exact ⟨rfl, rfl, rfl⟩
    · split
      · exact ⟨rfl, rfl, rfl⟩
      · exact ⟨rfl, rfl, rfl⟩

theorem update_state_is_gone_iff (c : ChannelM) (e : Event) :
    (c.update_state e).is_gone = true ↔
      (c.is_gone = true ∨ (c.update_state e).call_state = CallState.HANGUP ∨
        (c.update_state e).state = ChannelState.DESTROY) := by
  have h1 := applyStateNumber_fields c e
  have h2 := applyCallState_fields (c.applyStateNumber e) e
  have hg : ((c.applyStateNumber e).applyCallState e).is_gone = c.is_gone :=
    h2.1.trans h1.1
  simp only [ChannelM.update_state]
  split
  next hcond =>
    exact ⟨fun _ => Or.inr hcond, fun _ => rfl⟩
  next hcond =>
    constructor
    · intro h
      exact Or.inl (hg.symm.trans h)
    · rintro (h | h | h)
      · exact hg.trans h
      · exact absurd (Or.inl h) hcond
      · exact absurd (Or.inr h) hcond

/-- C3: for every channel and event sequence applied via `update_state`,
`is_gone` never reverts (once true it stays true under any further event),
and after any single applied event it is true exactly when the channel was
already gone or the updated states satisfy `call_state = HANGUP ∨
state = DESTROY`. -/
theorem is_gone_monotone_and_exact :
    (∀ (c : ChannelM) (e : Event),
      ((c.update_state e).is_gone = true ↔
        (c.is_gone = true ∨ (c.update_state e).call_state = CallState.HANGUP ∨
          (c.update_state e).state = ChannelState.DESTROY))) ∧
    (∀ (c : ChannelM) (es : List Event),
      c.is_gone = true → (c.applyEvents es).is_gone = true) := by
  refine ⟨update_state_is_gone_iff, ?_⟩
  intro c es
  induction es generalizing c with
  | nil => intro h; simpa [ChannelM.applyEvents] using h
  | cons e rest ih =>
    intro h
    have : (c.update_state e).is_gone = true :=
      (update_state_is_gone_iff c e).mpr (Or.inl h)
    simpa [ChannelM.applyEvents] using ih _ this

/-- Witness for C3 at a concrete input: a channel already gone stays gone
after applying a non-terminal `CHANNEL_ANSWER`-style event. -/
theorem is_gone_monotone_and_exact_witness :
    (({ uuid := "u", is_gone := true } : ChannelM).applyEvents
      [{ headers := [("Event-Name", .str "CHANNEL_ANSWER"),
                     ("Channel-State-Number", .str "4"),
                     ("Channel-Call-State", .str "ACTIVE")] }]).is_gone = true :=
  is_gone_monotone_and_exact.2 _ _ rfl

/-! ## Claim C7: header lines, repeated keys -/

theorem valuesOf_append (k : String) (p q : List (String × String)) :
    valuesOf k (p ++ q) = valuesOf k p ++ valuesOf k q := by
  simp [valuesOf]

theorem parseHeadersGo_lookup (lines : List String)
    (hsep : ∀ l ∈ lines, strContains l ": " = true)
    (buffer value : String) (d : Headers) (prev : List (String × String))
    (inv : ∀ k, hlookup d k = promoteVals (valuesOf k prev)) :
    ∀ k, hlookup (parseHeadersGo lines buffer value d) k =
      promoteVals (valuesOf k (prev ++ headerLinePairs lines)) := by
  induction lines generalizing buffer value d prev with
  | nil =>
    intro k
    simpa [parseHeadersGo, headerLinePairs] using inv k
  | cons line rest ih =>
    have hline : strContains line ": " = true := hsep line (by simp)
    have hrest : ∀ l ∈ rest, strContains l ": " = true :=
      fun l hl => hsep l (by simp [hl])
    intro k
    have hgo :
        parseHeadersGo (line :: rest) buffer value d =
          parseHeadersGo rest (splitFirst line ": ").1
            (unquote (pyStrip ((splitFirst line ": ").2.getD "")))
            (let key := unquote (pyStrip (splitFirst line ": ").1)
             let val := unquote (pyStrip ((splitFirst line ": ").2.getD ""))
             match hlookup d key with
             | some (HVal.str b) => hset d key (HVal.list [b, val])
             | some (HVal.list l) => hset d key (HVal.list (l ++ [val]))
             | none => hset d key (HVal.str val)) := by
      simp only [parseHeadersGo, hline, if_pos, if_true]
    rw [hgo]
    set key := unquote (pyStrip (splitFirst line ": ").1) with hkey
    set val := unquote (pyStrip ((splitFirst line ": ").2.getD "")) with hval
    have hpairs :
        headerLinePairs (line :: rest) = (key, val) :: headerLinePairs rest := by
      simp [headerLinePairs, hkey, hval]
    rw [hpairs]
    have hassoc :
        prev ++ (key, val) :: headerLinePairs rest =
          (prev ++ [(key, val)]) ++ headerLinePairs rest := by
      simp
    rw [hassoc]
    refine ih hrest _ _ _ (prev ++ [(key, val)]) ?_ k
    intro k'
    rw [valuesOf_append]
    by_cases hk : key = k'
    · subst hk
      have hvk : valuesOf key [(key, val)] = [val] := by simp [valuesOf]
      rw [hvk]
      have := inv key
      cases hprev : hlookup d key with
      | none =>
        rw [hprev] at this
        have hnil : valuesOf key prev = [] := by
          cases h : valuesOf key prev with
          | nil => rfl
          | cons a t =>
            rw [h] at this
            cases t <;> simp [promoteVals] at this
        simp [hnil, hprev, promoteVals, hlookup_hset]
      | some hv =>
        cases hv with
        | str b =>
          rw [hprev] at this
          have hb : valuesOf key prev = [b] := by
            cases h : valuesOf key prev with
            | nil => rw [h] at this; simp [promoteVals] at this
            | cons a t =>
              rw [h] at this
              cases t with
              | nil =>
                simp [promoteVals] at this
                simp [this]
              | cons a2 t2 => simp [promoteVals] at this
          simp [hb, hprev, promoteVals, hlookup_hset]
        | list l =>
          rw [hprev] at this
          obtain ⟨a, a2, t2, hl⟩ :
              ∃ a a2 t2, valuesOf key prev = a :: a2 :: t2 := by
            cases h : valuesOf key prev with
            | nil => rw [h] at this; simp [promoteVals] at this
            | cons a t =>
              cases t with
              | nil => rw [h] at this; simp [promoteVals] at this
              | cons a2 t2 => exact ⟨a, a2, t2, rfl⟩
          have hll : l = a :: a2 :: t2 := by
            rw [hl] at this
            simpa [promoteVals] using this
          simp [hl, hll, hprev, promoteVals, hlookup_hset]
    · have hvk : valuesOf k' [(key, val)] = [] := by simp [valuesOf, hk]
      rw [hvk]
      cases hprev : hlookup d key with
      | none => simp [hprev, hlookup_hset, hk, inv k']
      | some hv => cases hv <;> simp [hprev, hlookup_hset, hk, inv k']

/-- C7: for a header block each of whose (stripped) lines contains `": "`,
`parse_headers` maps every key to the promoted list of its values: the
key and the value of each line are obtained by splitting on the first
`": "` and percent-unescaping both parts; a key occurring once maps to that
scalar value, a key occurring more than once maps to the list of all its
values in arrival order. -/
theorem parse_headers_repeated_keys (payload : String)
    (hsep : ∀ l ∈ pySplitlines (pyStrip payload), strContains l ": " = true) :
    ∀ k, hlookup (parse_headers payload).headers k =
      promoteVals (valuesOf k (headerLinePairs (pySplitlines (pyStrip payload)))) := by
  intro k
  have h := parseHeadersGo_lookup (pySplitlines (pyStrip payload)) hsep "" "" [] []
    (fun _ => rfl) k
  simpa [parse_headers] using h

/-- Witness for C7 at a concrete header block: the repeated key `A` parses
to the list of its values in arrival order, the unrepeated key `B` to a
scalar, both percent-unescaped. -/
theorem parse_headers_repeated_keys_witness :
    hlookup (parse_headers "A: 1\nB: x%20y\nA: 2\n\n").headers "A" =
        some (.list ["1", "2"]) ∧
      hlookup (parse_headers "A: 1\nB: x%20y\nA: 2\n\n").headers "B" =
        some (.str "x y") := by
  have h := parse_headers_repeated_keys "A: 1\nB: x%20y\nA: 2\n\n" (by decide)
  exact ⟨(h "A").trans (by decide), (h "B").trans (by decide)⟩

/-! ## Claim C2: bundled multi-event frames -/

theorem hlookup_copyHeaderFrom_same (src dst : Headers) (k : String)
    (h : (hlookup src k).isSome) :
    hlookup (copyHeaderFrom src dst k) k = hlookup src k := by
  cases hs : hlookup src k with
  | none => rw [hs] at h; simp at h
  | some v => simp [copyHeaderFrom, hs, hlookup_hset]

theorem hlookup_copyHeaderFrom_other (src dst : Headers) (k k' : String)
    (hk : ¬ k = k') :
    hlookup (copyHeaderFrom src dst k) k' = hlookup dst k' := by
  cases hs : hlookup src k <;> simp [copyHeaderFrom, hs, hlookup_hset, hk]

/-- C2 (amended): for a frame whose decoded body contains a header/body
separator, whose extra-header block carries the event-lock marker and
splits on the event-name marker into `N ≥ 2` segments, the parser emits
exactly `N` events in order: the first merges the first segment into the
original event, each further segment becomes an independent event
inheriting the merged original's `Content-Length`/`Content-Type`, and all
emitted events carry the same remaining body text.  (A single locked
segment, `N = 1`, emits nothing — see the counterexample.) -/
theorem processFrameContent_bundled (event : Event) (cc : String) (ct : HVal)
    (hct : hlookup event.headers "Content-Type" = some ct)
    (htruthy : ct.truthy = true)
    (hexempt : ct ∉ exemptContentTypes)
    (hsepr : strContains cc "\n\n" = true)
    (hlock : strContains (pyLower (splitFirst cc "\n\n").1) "event-lock: true" = true)
    (p0 p1 : String) (prest : List String)
    (hparts : pySplit (splitFirst cc "\n\n").1 "\nEvent-Name: " = p0 :: p1 :: prest) :
    processFrameContent event cc =
        mergedC2 event cc p0 :: (p1 :: prest).map (subEventC2 event cc p0) ∧
      (processFrameContent event cc).length = (p0 :: p1 :: prest).length ∧
      (∀ e ∈ processFrameContent event cc,
        e.body = some ((splitFirst cc "\n\n").2.getD "")) ∧
      (∀ p : String,
        ((hlookup (mergedC2 event cc p0).headers "Content-Length").isSome →
          hlookup (subEventC2 event cc p0 p).headers "Content-Length" =
            hlookup (mergedC2 event cc p0).headers "Content-Length") ∧
        ((hlookup (mergedC2 event cc p0).headers "Content-Type").isSome →
          hlookup (subEventC2 event cc p0 p).headers "Content-Type" =
            hlookup (mergedC2 event cc p0).headers "Content-Type")) := by
  have hmain : processFrameContent event cc =
      mergedC2 event cc p0 :: (p1 :: prest).map (subEventC2 event cc p0) := by
    simp only [processFrameContent, hct, htruthy, hsepr, hlock, hparts,
      if_neg hexempt, mergedC2, subEventC2, if_true, List.map]
    simp [List.map_map, Function.comp_def]
    intro a _
    rfl
  refine ⟨hmain, ?_, ?_, ?_⟩
  · rw [hmain]; simp
  · rw [hmain]
    intro e he
    rcases List.mem_cons.mp he with rfl | hmem
    · rfl
    · obtain ⟨p, _, rfl⟩ := List.mem_map.mp hmem
      rfl
  · intro p
    constructor
    · intro hsome
      show hlookup (copyHeaderFrom _ _ "Content-Type") "Content-Length" = _
      rw [hlookup_copyHeaderFrom_other _ _ _ _ (by decide)]
      exact hlookup_copyHeaderFrom_same _ _ _ hsome
    · intro hsome
      exact hlookup_copyHeaderFrom_same _ _ _ hsome

/-- Counterexample to C2 as stated: this frame satisfies the claim's
premise with `N = 1` (separator present, event-lock marker present, exactly
one event-header segment), yet the parser emits zero events instead of one —
the locked single-segment frame is dropped entirely. -/
theorem processFrameContent_single_locked_dropped :
    strContains lockBodyC2 "\n\n" = true ∧
      strContains (pyLower (splitFirst lockBodyC2 "\n\n").1) "event-lock: true" = true ∧
      (pySplit (splitFirst lockBodyC2 "\n\n").1 "\nEvent-Name: ").length = 1 ∧
      hlookup lockFrameEventC2.headers "Content-Type" = some (.str "text/event-plain") ∧
      HVal.truthy (.str "text/event-plain") = true ∧
      (.str "text/event-plain") ∉ exemptContentTypes ∧
      processFrameContent lockFrameEventC2 lockBodyC2 = [] := by
  decide

/-- Witness for C2 (amended) at a concrete two-event locked frame: exactly
two events are emitted, the second inheriting the merged original's
`Content-Length` and `Content-Type` and sharing the body text. -/
theorem processFrameContent_bundled_witness :
    (processFrameContent lockFrameEventC2
        "Event-Name: A\nEvent-Lock: true\nEvent-Name: B\nEvent-Lock: true\n\nBODY").length = 2 ∧
      (∀ e ∈ processFrameContent lockFrameEventC2
          "Event-Name: A\nEvent-Lock: true\nEvent-Name: B\nEvent-Lock: true\n\nBODY",
        e.body = some "BODY") := by
  have h := processFrameContent_bundled lockFrameEventC2
    "Event-Name: A\nEvent-Lock: true\nEvent-Name: B\nEvent-Lock: true\n\nBODY"
    (.str "text/event-plain") (by decide) (by decide) (by decide) (by decide)
    (by decide) "Event-Name: A\nEvent-Lock: true" "B\nEvent-Lock: true" []
    (by decide)
  refine ⟨h.2.1.trans (by decide), ?_⟩
  intro e he
  exact (h.2.2.1 e he).trans (by decide)

/-! ## Claim C4: `send` wire format and FIFO reply correlation -/

theorem routeEvent_pushes_reply (st : RouterState) (e : Event)
    (h : hlookup e.headers "Content-Type" = some (.str "command/reply") ∨
      hlookup e.headers "Content-Type" = some (.str "api/response")) :
    (routeEvent st e).commands = st.commands ++ [e] := by
  rcases h with h | h <;> simp [routeEvent, h]

/-- C4: `send(command)` writes each line of the command followed by one
trailing blank line and then returns the front of the FIFO reply queue,
onto which the router pushes every command-reply and API-reply event in
arrival order; consequently three sequential sends after three such replies
arrived in order resolve to the corresponding replies. -/
theorem send_fifo_correlation :
    (∀ (st : RouterState) (written : List String) (cmd : String),
      (protocolSend st written cmd).2.1 =
        written ++ (pySplitlines cmd).map (fun line => line ++ "\n") ++ ["\n"]) ∧
    (∀ (st : RouterState) (written : List String) (cmd : String) (r : Event)
        (rest : List Event), st.commands = r :: rest →
      (protocolSend st written cmd).2.2 = some r ∧
      (protocolSend st written cmd).1.commands = rest) ∧
    (∀ (st : RouterState) (e : Event),
      (hlookup e.headers "Content-Type" = some (.str "command/reply") ∨
        hlookup e.headers "Content-Type" = some (.str "api/response")) →
      (routeEvent st e).commands = st.commands ++ [e]) ∧
    (∀ (st : RouterState) (e1 e2 e3 : Event) (cmd1 cmd2 cmd3 : String)
        (written : List String),
      st.commands = [] →
      (hlookup e1.headers "Content-Type" = some (.str "command/reply") ∨
        hlookup e1.headers "Content-Type" = some (.str "api/response")) →
      (hlookup e2.headers "Content-Type" = some (.str "command/reply") ∨
        hlookup e2.headers "Content-Type" = some (.str "api/response")) →
      (hlookup e3.headers "Content-Type" = some (.str "command/reply") ∨
        hlookup e3.headers "Content-Type" = some (.str "api/response")) →
      let st0 := routeEvents st [e1, e2, e3]
      let s1 := protocolSend st0 written cmd1
      let s2 := protocolSend s1.1 s1.2.1 cmd2
      let s3 := protocolSend s2.1 s2.2.1 cmd3
      s1.2.2 = some e1 ∧ s2.2.2 = some e2 ∧ s3.2.2 = some e3) := by
  refine ⟨?_, ?_, routeEvent_pushes_reply, ?_⟩
  · intro st written cmd
    cases h : st.commands <;> simp [protocolSend, h, sendWires]
  · intro st written cmd r rest h
    simp [protocolSend, h]
  · intro st e1 e2 e3 cmd1 cmd2 cmd3 written hnil h1 h2 h3
    have hq : (routeEvents st [e1, e2, e3]).commands = [e1, e2, e3] := by
      simp [routeEvents, routeEvent_pushes_reply _ _ h1,
        routeEvent_pushes_reply _ _ h2, routeEvent_pushes_reply _ _ h3, hnil]
    simp [protocolSend, hq]

/-- Witness for C4 at concrete replies and commands: three command replies
routed in order are handed back, in order, to three sequential sends. -/
theorem send_fifo_correlation_witness :
    let r1 : Event := { headers := [("Content-Type", .str "command/reply"),
                                    ("Reply-Text", .str "+OK 1")] }
    let r2 : Event := { headers := [("Content-Type", .str "api/response"),
                                    ("Reply-Text", .str "+OK 2")] }
    let r3 : Event := { headers := [("Content-Type", .str "command/reply"),
                                    ("Reply-Text", .str "+OK 3")] }
    let st0 := routeEvents {} [r1, r2, r3]
    let s1 := protocolSend st0 [] "linger"
    let s2 := protocolSend s1.1 s1.2.1 "event plain ALL"
    let s3 := protocolSend s2.1 s2.2.1 "exit"
    s1.2.2 = some r1 ∧ s2.2.2 = some r2 ∧ s3.2.2 = some r3 :=
  send_fifo_correlation.2.2.2 {} _ _ _ "linger" "event plain ALL" "exit" []
    rfl (Or.inl rfl) (Or.inr rfl) (Or.inl rfl)

/-! ## Claim C5: `bridge` pre-creates and registers the B-leg -/

/-- C5: on a non-gone channel, `bridge` with a dialstring target registers
a fresh B-leg channel (core state `NEW`, call state `DOWN`) in the
session's channel map, with the registration action strictly before the
bridge `execute` command in the action trace, and returns that pre-created
channel as the second component; with an existing channel as target it only
issues the `uuid_bridge` background job — no channel is created and no
channel is returned. -/
theorem bridge_precreates_bleg (c : ChannelM) (channels : List (String × ChannelM))
    (dest : String) (cv : List (String × String)) (blegUuid bridgeAppUuid : String)
    (tch : ChannelM) (hgone : c.is_gone = false) :
    (clookup (c.bridge channels (Sum.inl dest) cv blegUuid bridgeAppUuid).2.1 blegUuid =
      some (ChannelM.new blegUuid)) ∧
    ((ChannelM.new blegUuid).state = ChannelState.NEW ∧
      (ChannelM.new blegUuid).call_state = CallState.DOWN ∧
      (ChannelM.new blegUuid).is_gone = false) ∧
    ((c.bridge channels (Sum.inl dest) cv blegUuid bridgeAppUuid).2.2 =
      .ok (some (ChannelM.new blegUuid))) ∧
    ((c.bridge channels (Sum.inl dest) cv blegUuid bridgeAppUuid).1 =
        [ChanAct.registerChannel blegUuid, ChanAct.sendFilter blegUuid,
         ChanAct.sendmsg c.uuid "execute" "bridge"
           (some (build_variable_string (bridgeEffectiveVars c cv blegUuid) ++ dest))
           (some bridgeAppUuid)]) ∧
    (c.bridge channels (Sum.inr tch) cv blegUuid bridgeAppUuid =
      ([ChanAct.bgapi ("uuid_bridge " ++ c.uuid ++ " " ++ tch.uuid)], channels,
        .ok none)) := by
  refine ⟨?_, ⟨rfl, rfl, rfl⟩, ?_, ?_, ?_⟩
  · simp [ChannelM.bridge, hgone, clookup_cset]
  · simp [ChannelM.bridge, hgone]
  · simp [ChannelM.bridge, hgone]
  · simp [ChannelM.bridge, hgone]

/-- Witness for C5 at a concrete channel: the registry of the returned
state holds the pre-created B-leg, and a channel-object target yields only
the background job. -/
theorem bridge_precreates_bleg_witness :
    (clookup ((ChannelM.new "aleg").bridge [("aleg", ChannelM.new "aleg")]
        (Sum.inl "user/1000") [] "bleg" "appuuid").2.1 "bleg" =
      some (ChannelM.new "bleg")) ∧
    ((ChannelM.new "aleg").bridge [("aleg", ChannelM.new "aleg")]
        (Sum.inr (ChannelM.new "tleg")) [] "bleg" "appuuid" =
      ([ChanAct.bgapi "uuid_bridge aleg tleg"], [("aleg", ChannelM.new "aleg")],
        .ok none)) := by
  have h := bridge_precreates_bleg (ChannelM.new "aleg")
    [("aleg", ChannelM.new "aleg")] "user/1000" [] "bleg" "appuuid"
    (ChannelM.new "tleg") rfl
  exact ⟨h.1, h.2.2.2.2⟩

/-! ## Claim C6: `originate` failure and success handling -/

/-- C6: with a fresh generated id, (a) a job response whose body begins
with the error marker makes `originate` raise an `OriginateError` carrying
the original destination and the attempted variables, and leaves the id
unregistered (the channel map is exactly the original one); (b) on a
response not classified as an error the new channel is registered under the
id; (c) on such a nominally successful response, if the channel is already
marked gone at the check, the `OriginateError` is raised anyway and the id
ends up unregistered. -/
theorem originate_error_and_success (channels : List (String × ChannelM))
    (dest freshUuid application_after : String)
    (vs : List (String × String)) (tmo : Option Nat) (r : String)
    (hfresh : clookup channels freshUuid = none) :
    (pyStartsWith (pyStrip r) "-ERR" = true → r ≠ "" →
      (channelOriginate channels dest none freshUuid vs tmo application_after
          { hasCompletionEvent := true, response := some r } false).result =
        .error (.originateError ("Originate command failed: " ++ pyStrip r) dest
          (sset vs "origination_uuid" freshUuid)) ∧
      (channelOriginate channels dest none freshUuid vs tmo application_after
          { hasCompletionEvent := true, response := some r } false).channels =
        channels) ∧
    (originateRespFails (pyStrip r) = false →
      (channelOriginate channels dest none freshUuid vs tmo application_after
          { hasCompletionEvent := true, response := some r } false).result =
        .ok (ChannelM.new freshUuid) ∧
      clookup (channelOriginate channels dest none freshUuid vs tmo
          application_after { hasCompletionEvent := true, response := some r }
          false).channels freshUuid = some (ChannelM.new freshUuid)) ∧
    (originateRespFails (pyStrip r) = false →
      (channelOriginate channels dest none freshUuid vs tmo application_after
          { hasCompletionEvent := true, response := some r } true).result =
        .error (.originateError ("Channel " ++ freshUuid ++ " disconnected immediately")
          dest (sset vs "origination_uuid" freshUuid)) ∧
      clookup (channelOriginate channels dest none freshUuid vs tmo
          application_after { hasCompletionEvent := true, response := some r }
          true).channels freshUuid = none) := by
  refine ⟨?_, ?_, ?_⟩
  · intro herr hne
    have hfails : originateRespFails (pyStrip r) = true := by
      simp [originateRespFails, herr]
    constructor
    · simp [channelOriginate, hne, hfails]
    · simp [channelOriginate, hne, hfails, hfresh]
  · intro hok
    by_cases hne : r = ""
    · subst hne
      constructor
      · simp [channelOriginate]
      · simp [channelOriginate, clookup_cset]
    · constructor
      · simp [channelOriginate, hne, hok]
      · simp [channelOriginate, hne, hok, clookup_cset]
  · intro hok
    by_cases hne : r = ""
    · subst hne
      constructor
      · simp [channelOriginate]
      · simp [channelOriginate, cdel_cset_of_not_mem _ _ _ hfresh, hfresh]
    · constructor
      · simp [channelOriginate, hne, hok]
      · simp [channelOriginate, hne, hok, cdel_cset_of_not_mem _ _ _ hfresh, hfresh]

/-- Witness for C6 at the spec's concrete failing job response
`"-ERR DESTINATION_OUT_OF_ORDER"`: the error carries the destination and
attempted variables, and no channel stays registered. -/
theorem originate_error_and_success_witness :
    (channelOriginate [] "user/1000" none "nuid" [("caller_id", "123")] none
        "park()" { hasCompletionEvent := true,
                   response := some "-ERR DESTINATION_OUT_OF_ORDER" } false).result =
      .error (.originateError
        "Originate command failed: -ERR DESTINATION_OUT_OF_ORDER" "user/1000"
        [("caller_id", "123"), ("origination_uuid", "nuid")]) ∧
    (channelOriginate [] "user/1000" none "nuid" [("caller_id", "123")] none
        "park()" { hasCompletionEvent := true,
                   response := some "-ERR DESTINATION_OUT_OF_ORDER" } false).channels =
      [] := by
  have h := (originate_error_and_success [] "user/1000" "nuid" "park()"
    [("caller_id", "123")] none "-ERR DESTINATION_OUT_OF_ORDER" rfl).1
    (by decide) (by decide)
  exact ⟨h.1.trans (by rfl), h.2⟩

/-! ## Claim C9: operations on a destroyed leg fail fast -/

/-- C9: on a channel whose `is_gone` flag is set, `execute` (and with it
every application helper that goes through `_sendmsg`), `bridge`,
`unbridge` and `get_variable` raise `SessionGoneAway` at the call site:
the result is the destroyed-leg error and the action trace is empty — no
command frame is written and, for `bridge`, the channel map is untouched. -/
theorem gone_channel_ops_fail_fast (c : ChannelM) (application : String)
    (data : Option String) (appEventUuid : Option String)
    (channels : List (String × ChannelM)) (dest : String)
    (cv : List (String × String)) (blegUuid bridgeAppUuid : String)
    (destination : Option String) (park : Bool) (name : String)
    (hgone : c.is_gone = true) :
    c.execute application data appEventUuid = ([], .error (goneAwayErr c)) ∧
      c.bridge channels (Sum.inl dest) cv blegUuid bridgeAppUuid =
        ([], channels, .error (goneAwayErr c)) ∧
      c.unbridge destination park = ([], .error (goneAwayErr c)) ∧
      c.get_variable name = ([], .error (goneAwayErr c)) := by
  refine ⟨?_, ?_, ?_, ?_⟩ <;>
    simp [ChannelM.execute, ChannelM.sendmsgOp, ChannelM.bridge,
      ChannelM.unbridge, ChannelM.get_variable, hgone]

/-- Witness for C9 at a concrete destroyed channel: every operation yields
the destroyed-leg error with an empty action trace. -/
theorem gone_channel_ops_fail_fast_witness :
    let c : ChannelM := { uuid := "dead", is_gone := true }
    c.execute "playback" (some "/tmp/a.wav") none =
        ([], .error (.sessionGoneAway "Channel dead has been destroyed.")) ∧
      c.bridge [] (Sum.inl "user/1000") [] "b" "u" =
        ([], [], .error (.sessionGoneAway "Channel dead has been destroyed.")) ∧
      c.unbridge none true =
        ([], .error (.sessionGoneAway "Channel dead has been destroyed.")) ∧
      c.get_variable "foo" =
        ([], .error (.sessionGoneAway "Channel dead has been destroyed.")) :=
  gone_channel_ops_fail_fast { uuid := "dead", is_gone := true }
    "playback" (some "/tmp/a.wav") none [] "user/1000" [] "b" "u" none true
    "foo" rfl

/-! ## Claim C10: `hangup` on a gone or terminal channel -/

/-- C10: calling `hangup` on a channel whose `is_gone` flag is set or whose
core state is `HANGUP` or `DESTROY` sends nothing and raises nothing: it
returns a synthetic, already-completed `CommandResult` whose reply text is
`"+OK Channel already hungup or gone"` and whose success flag is true. -/
theorem hangup_synthetic_when_gone (c : ChannelM) (cause : String) (reply : Event)
    (h : c.is_gone = true ∨ c.state = ChannelState.HANGUP ∨
      c.state = ChannelState.DESTROY) :
    (c.hangup cause reply).1 = [] ∧
      (c.hangup cause reply).2.is_completed = true ∧
      (c.hangup cause reply).2.is_successful = some true ∧
      ((c.hangup cause reply).2.complete_event.bind fun ev =>
        ev.getStr "Reply-Text") = some "+OK Channel already hungup or gone" := by
  have hcond : c.state = ChannelState.HANGUP ∨ c.state = ChannelState.DESTROY ∨
      c.is_gone = true := by tauto
  unfold ChannelM.hangup
  rw [if_pos hcond]
  exact ⟨rfl, rfl, rfl, rfl⟩

/-- Witness for C10 at a concrete gone channel: no action, completed,
successful, with the synthetic reply text. -/
theorem hangup_synthetic_when_gone_witness :
    let c : ChannelM := { uuid := "dead", is_gone := true }
    let reply : Event := { headers := [("Reply-Text", .str "+OK")] }
    (c.hangup "NORMAL_CLEARING" reply).1 = [] ∧
      (c.hangup "NORMAL_CLEARING" reply).2.is_completed = true ∧
      (c.hangup "NORMAL_CLEARING" reply).2.is_successful = some true ∧
      ((c.hangup "NORMAL_CLEARING" reply).2.complete_event.bind fun ev =>
        ev.getStr "Reply-Text") = some "+OK Channel already hungup or gone" :=
  hangup_synthetic_when_gone { uuid := "dead", is_gone := true }
    "NORMAL_CLEARING" { headers := [("Reply-Text", .str "+OK")] } (Or.inl rfl)

/-! ## Claim C1: a `PendingOperation` resolves exactly once -/

theorem corrDispatch_noop (appUuid chanUuid : String) (st : CorrState) (e : Event)
    (h1 : st.completeReg = false) (h2 : st.hangupReg = false)
    (h3 : st.destroyReg = false)
    (h4 : ¬ e.getStr "Event-Name" = some "CHANNEL_EXECUTE_COMPLETE") :
    corrDispatch appUuid chanUuid st e = st := by
  simp [corrDispatch, h1, h2, h3, h4]

theorem corrDispatch_complete_fires (appUuid chanUuid : String) (st : CorrState)
    (e : Event) (hreg : st.completeReg = true)
    (hname : e.getStr "Event-Name" = some "CHANNEL_EXECUTE_COMPLETE")
    (happ : hlookup e.headers "Application-UUID" = some (.str appUuid)) :
    (corrDispatch appUuid chanUuid st e).result.complete = true ∧
      (corrDispatch appUuid chanUuid st e).result.complete_event = some e ∧
      (corrDispatch appUuid chanUuid st e).result.exception = st.result.exception ∧
      (corrDispatch appUuid chanUuid st e).completeReg = false ∧
      (corrDispatch appUuid chanUuid st e).hangupReg = false ∧
      (corrDispatch appUuid chanUuid st e).destroyReg = false := by
  by_cases hres : resolveUuid e = some chanUuid <;>
    by_cases hchan : st.chanReg = true <;>
      simp [corrDispatch, hreg, hname, happ, hres, hchan,
        CommandResultM.set_complete]

theorem corrDispatch_interrupt_fires (appUuid chanUuid : String) (st : CorrState)
    (e : Event) (hhang : st.hangupReg = true) (hdest : st.destroyReg = true)
    (hname : e.getStr "Event-Name" = some "CHANNEL_HANGUP" ∨
      e.getStr "Event-Name" = some "CHANNEL_DESTROY")
    (huuid : e.getStr "Unique-ID" = some chanUuid) :
    (corrDispatch appUuid chanUuid st e).result.complete = true ∧
      (corrDispatch appUuid chanUuid st e).result.exception ≠ none ∧
      (corrDispatch appUuid chanUuid st e).result.complete_event =
        st.result.complete_event ∧
      (corrDispatch appUuid chanUuid st e).completeReg = false ∧
      (corrDispatch appUuid chanUuid st e).hangupReg = false ∧
      (corrDispatch appUuid chanUuid st e).destroyReg = false := by
  rcases hname with hname | hname <;>
    simp [corrDispatch, hhang, hdest, hname, huuid,
      CommandResultM.set_exception]

/-- C1: for an in-flight `execute` command (correlation id `appUuid` on
channel `chanUuid`), whichever of the completion event (matching
`Application-UUID`) and the interruption event (`CHANNEL_HANGUP` /
`CHANNEL_DESTROY` for the channel id) is dispatched first resolves the
`CommandResult` and deregisters both session-level waiters; in particular,
after a completion event has been delivered, delivering the interruption
event is a strict no-op — the correlation state, and with it the result of
the first delivery, is unchanged. -/
theorem pending_operation_resolves_once (appUuid chanUuid application : String)
    (data : Option String) (reply ec eh : Event)
    (hec_name : ec.getStr "Event-Name" = some "CHANNEL_EXECUTE_COMPLETE")
    (hec_app : hlookup ec.headers "Application-UUID" = some (.str appUuid))
    (heh_name : eh.getStr "Event-Name" = some "CHANNEL_HANGUP" ∨
      eh.getStr "Event-Name" = some "CHANNEL_DESTROY")
    (heh_uuid : eh.getStr "Unique-ID" = some chanUuid) :
    let st0 := corrInit appUuid chanUuid application data reply
    let st1 := corrDispatch appUuid chanUuid st0 ec
    (st1.result.complete = true ∧ st1.result.complete_event = some ec ∧
      st1.result.exception = none ∧ st1.completeReg = false ∧
      st1.hangupReg = false ∧ st1.destroyReg = false) ∧
    corrDispatch appUuid chanUuid st1 eh = st1 ∧
    (let st1' := corrDispatch appUuid chanUuid st0 eh
     st1'.result.complete = true ∧ st1'.result.exception ≠ none ∧
      st1'.result.complete_event = none ∧ st1'.completeReg = false ∧
      st1'.hangupReg = false ∧ st1'.destroyReg = false) := by
  intro st0 st1
  have hfire := corrDispatch_complete_fires appUuid chanUuid st0 ec rfl
    hec_name hec_app
  have hehnotcec : ¬ eh.getStr "Event-Name" = some "CHANNEL_EXECUTE_COMPLETE" := by
    rcases heh_name with h | h <;> simp [h]
  refine ⟨⟨hfire.1, hfire.2.1, hfire.2.2.1, hfire.2.2.2⟩, ?_, ?_⟩
  · exact corrDispatch_noop appUuid chanUuid st1 eh hfire.2.2.2.1
      hfire.2.2.2.2.1 hfire.2.2.2.2.2 hehnotcec
  · intro st1'
    have hint := corrDispatch_interrupt_fires appUuid chanUuid st0 eh rfl rfl
      heh_name heh_uuid
    exact ⟨hint.1, hint.2.1, hint.2.2.1, hint.2.2.2⟩

/-- Witness for C1 at concrete events: the completion event resolves the
result, and a subsequent hangup event for the same channel changes
nothing. -/
theorem pending_operation_resolves_once_witness :
    let ec : Event := { headers := [("Event-Name", .str "CHANNEL_EXECUTE_COMPLETE"),
                                    ("Application-UUID", .str "app-1"),
                                    ("Unique-ID", .str "chan-1")] }
    let eh : Event := { headers := [("Event-Name", .str "CHANNEL_HANGUP"),
                                    ("Unique-ID", .str "chan-1")] }
    let st0 := corrInit "app-1" "chan-1" "playback" (some "/tmp/a.wav")
      { headers := [("Reply-Text", .str "+OK")] }
    let st1 := corrDispatch "app-1" "chan-1" st0 ec
    (st1.result.complete = true ∧ st1.result.complete_event = some ec ∧
      st1.result.exception = none ∧ st1.completeReg = false ∧
      st1.hangupReg = false ∧ st1.destroyReg = false) ∧
    corrDispatch "app-1" "chan-1" st1 eh = st1 := by
  have h := pending_operation_resolves_once "app-1" "chan-1" "playback"
    (some "/tmp/a.wav") { headers := [("Reply-Text", .str "+OK")] }
    { headers := [("Event-Name", .str "CHANNEL_EXECUTE_COMPLETE"),
                  ("Application-UUID", .str "app-1"),
                  ("Unique-ID", .str "chan-1")] }
    { headers := [("Event-Name", .str "CHANNEL_HANGUP"),
                  ("Unique-ID", .str "chan-1")] }
    (by decide) (by decide) (Or.inl (by decide)) (by decide)
  exact ⟨h.1, h.2.1⟩

/-! ## Claim C8: `channel_a` lifecycle -/

theorem handleKnownChannel_channel_a (s : SessionSt) (e : Event) (uuid : String)
    (ch : ChannelM) (a : String) (ha : s.channel_a = some a) :
    (handleKnownChannel s e uuid ch).channel_a = some a ∨
      ((handleKnownChannel s e uuid ch).channel_a = none ∧
        e.getStr "Event-Name" = some "CHANNEL_DESTROY" ∧ uuid = a) := by
  by_cases hd : e.getStr "Event-Name" = some "CHANNEL_DESTROY"
  · by_cases hu : a = uuid
    · subst hu
      simp [handleKnownChannel, hd, ha]
    · simp [handleKnownChannel, hd, ha, hu]
  · simp [handleKnownChannel, hd, ha]

theorem createUnknownChannel_channel_a (s : SessionSt) (e : Event) (uuid : String)
    (ini : Bool) (a : String) (ha : s.channel_a = some a)
    (hnd : ¬ e.getStr "Event-Name" = some "CHANNEL_DESTROY") :
    (createUnknownChannel s e uuid ini).1.channel_a = some a := by
  have h := handleKnownChannel_channel_a
    { s with channels := cset s.channels uuid (ChannelM.new uuid) } e uuid
    (ChannelM.new uuid) a ha
  simp only [createUnknownChannel]
  rw [if_neg (show ¬ ({ s with
      channels := cset s.channels uuid (ChannelM.new uuid) } : SessionSt).channel_a =
        none from by simp [ha])]
  rcases h with h | ⟨_, h2, _⟩
  · exact h
  · exact absurd h2 hnd

/-- C8 (amended): once `channel_a` is set, a dispatched event never replaces
it with a different channel — the only transition out of the set state is
clearing, and that happens exactly on a destroy event resolving to that
channel's id.  (After such a clearing a later leg-creating event may set
`channel_a` again, so over a session's whole lifetime it can be set more
than once — see the counterexample.) -/
theorem channel_a_cleared_only_by_own_destroy (s : SessionSt) (e : Event)
    (a : String) (ha : s.channel_a = some a) :
    (dispatchEventToChannels s e).1.channel_a = some a ∨
      ((dispatchEventToChannels s e).1.channel_a = none ∧
        e.getStr "Event-Name" = some "CHANNEL_DESTROY" ∧
        resolveUuid e = some a) := by
  unfold dispatchEventToChannels
  cases hres : resolveUuid e with
  | none => exact Or.inl ha
  | some uuid =>
    dsimp only
    cases hch : clookup s.channels uuid with
    | some ch =>
      rcases handleKnownChannel_channel_a s e uuid ch a ha with h | ⟨h1, h2, h3⟩
      · exact Or.inl h
      · exact Or.inr ⟨h1, h2, by rw [h3]⟩
    | none =>
      dsimp only
      split
      next hcond =>
        simp only [ha, Bool.or_eq_true, Bool.and_eq_true, decide_eq_true_eq,
          Option.isSome_iff_exists] at hcond
        have hnd : ¬ e.getStr "Event-Name" = some "CHANNEL_DESTROY" := by
          rcases hcond with (h | h) | ⟨⟨h, _⟩, _⟩
          · intro hc; rw [h] at hc; simp at hc
          · intro hc; rw [h] at hc; simp at hc
          · simp at h
        exact Or.inl (createUnknownChannel_channel_a s e uuid _ a ha hnd)
      next => exact Or.inl ha

/-- Witness for C8 (amended) at a concrete session: a destroy event for the
A-leg's own id satisfies the dichotomy. -/
theorem channel_a_cleared_only_by_own_destroy_witness :
    let s : SessionSt := { channels := [("aaa", ChannelM.new "aaa")],
                           channel_a := some "aaa" }
    let e : Event := { headers := [("Event-Name", .str "CHANNEL_DESTROY"),
                                   ("Unique-ID", .str "aaa")] }
    (dispatchEventToChannels s e).1.channel_a = some "aaa" ∨
      ((dispatchEventToChannels s e).1.channel_a = none ∧
        e.getStr "Event-Name" = some "CHANNEL_DESTROY" ∧
        resolveUuid e = some "aaa") :=
  channel_a_cleared_only_by_own_destroy
    { channels := [("aaa", ChannelM.new "aaa")], channel_a := some "aaa" }
    { headers := [("Event-Name", .str "CHANNEL_DESTROY"),
                  ("Unique-ID", .str "aaa")] } "aaa" rfl

/-- Counterexample to C8 as stated: over one session lifetime, the event
sequence create-"aaa", destroy-"aaa", create-"bbb" sets `channel_a` twice
(the destroy clears it, and the second create sets it again), refuting
"`channel_a` is set at most once during the session's lifetime". -/
theorem channel_a_set_twice :
    countChannelASets {}
      [{ headers := [("Event-Name", .str "CHANNEL_CREATE"),
                     ("Unique-ID", .str "aaa")] },
       { headers := [("Event-Name", .str "CHANNEL_DESTROY"),
                     ("Unique-ID", .str "aaa")] },
       { headers := [("Event-Name", .str "CHANNEL_CREATE"),
                     ("Unique-ID", .str "bbb")] }] = 2 := by
  decide

end Genesis
